import Mathlib

/-!
Shallow embedding of `mdlabelgen` (src/main.rs): a tool that composes
minidisc label images (cover art, logo, up to three text lines) and places
them left-to-right on a printable sheet.

Image-library primitives (decode, resize, overlay, draw_text) are external
collaborators; they are modelled symbolically as constructors of an image
term, while the geometry (all coordinate arithmetic) is embedded exactly.
All u32/usize/i32/i64 arithmetic from the source involves only small values
(far below any overflow bound), so it is embedded over Nat/Int directly.
-/

namespace MdLabelGen

/- Constants, src/main.rs lines 13-32. -/

def PRINTABLE_HEIGHT : Nat := 50
def PRITNABLE_WIDTH : Nat := 76
def LABEL_HEIGHT : Nat := 50
def LABEL_WIDTH : Nat := 36
def DESIRED_DPMM : Nat := 24

def LABEL_WIDTH_PX : Nat := LABEL_WIDTH * DESIRED_DPMM
def LABEL_HEIGHT_PX : Nat := LABEL_HEIGHT * DESIRED_DPMM
def PRITNABLE_WIDTH_PX : Nat := PRITNABLE_WIDTH * DESIRED_DPMM
def PRINTABLE_HEIGHT_PX : Nat := PRINTABLE_HEIGHT * DESIRED_DPMM

def PADDING : Int := 40
def MARGIN : Int := 20

def MD_LOGO_SIZE : Nat := 160

/-- `TEXT_SIZE_PT` is the f32 literal 60.0; every use of the resulting
`PxScale` in coordinate arithmetic is `font_scale.y as i32`, which is
exactly 60, so the scale is embedded as that integer. -/
def TEXT_SIZE_PT : Int := 60

/- Pixels.  `Rgb<u8>`; `Pixel::invert` maps each channel c to 255 - c. -/

structure Rgb where
  r : Nat
  g : Nat
  b : Nat
deriving DecidableEq, Repr

def Rgb.invert (c : Rgb) : Rgb := ⟨255 - c.r, 255 - c.g, 255 - c.b⟩

def whiteRgb : Rgb := ⟨255, 255, 255⟩

/-- Pixel-level model of the sheet initialisation, src/main.rs lines
161-164: `ImageBuffer::new` allocates a zeroed (black) buffer, then the
`enumerate_pixels_mut` loop inverts every pixel in place. -/
def zeroedBuffer : Nat → Nat → Rgb := fun _ _ => ⟨0, 0, 0⟩

def printable_area_pixels : Nat → Nat → Rgb :=
  fun x y => (zeroedBuffer x y).invert

/- Symbolic images.  Raw images are decoded files and their resizes
(`image::imageops::resize` with a filter); composed images are buffers
with overlays and drawn text.  The library primitives are collaborators,
so an image is the term describing the operations applied to build it. -/

inductive Filter where
  | triangle
  | catmullRom
deriving DecidableEq, Repr

inductive RawImg where
  | decoded : String → RawImg
  | resize : RawImg → Nat → Nat → Filter → RawImg
deriving DecidableEq, Repr

inductive Img where
  | newBuffer : Nat → Nat → Img
  | invertAll : Img → Img
  | overlayRaw : Img → RawImg → Int → Int → Img
  | overlay : Img → Img → Int → Int → Img
  | drawText : Img → Rgb → Int → Int → Int → String → Img
deriving DecidableEq, Repr

/-- The text lines drawn on top of an image: for each `draw_text`
application, the drawn string with its (x, y) position, outermost last. -/
def Img.textLines : Img → List (String × Int × Int)
  | .drawText base _ x y _ s => Img.textLines base ++ [(s, x, y)]
  | _ => []

/-- The images overlaid onto a sheet with their (x, y) offsets, in
placement order.  Only whole-image overlays (label placements) are
collected; the inverted base buffer contributes nothing. -/
def Img.overlays : Img → List (Img × Int × Int)
  | .overlay base l x y => Img.overlays base ++ [(l, x, y)]
  | .invertAll i => Img.overlays i
  | _ => []

def Img.width : Img → Nat
  | .newBuffer w _ => w
  | .invertAll i => Img.width i
  | .overlayRaw b _ _ _ => Img.width b
  | .overlay b _ _ _ => Img.width b
  | .drawText b _ _ _ _ _ => Img.width b

def Img.height : Img → Nat
  | .newBuffer _ h => h
  | .invertAll i => Img.height i
  | .overlayRaw b _ _ _ => Img.height b
  | .overlay b _ _ _ => Img.height b
  | .drawText b _ _ _ _ _ => Img.height b

/-- Pixel content of an image where the embedding determines it: a fresh
buffer is zeroed, inversion inverts pointwise; the blended result of the
library overlay/draw primitives is not modelled (`none`). -/
def Img.pixelAt : Img → Nat → Nat → Option Rgb
  | .newBuffer _ _, _, _ => some ⟨0, 0, 0⟩
  | .invertAll i, x, y => (Img.pixelAt i x y).map Rgb.invert
  | _, _, _ => none

/- Data model, src/main.rs lines 34-67. -/

structure Label where
  title : String
  artist : String
  release_year : Option String
  cover : String
deriving DecidableEq, Repr

structure Config where
  labels : List Label
deriving DecidableEq, Repr

structure Args where
  cover : Option String
  title : Option String
  artist : Option String
  release_year : Option String
  output : String
  layout : Option String
deriving DecidableEq, Repr

/-- Error taxonomy of the run, named as in the spec.  In the source these
are boxed `dyn Error` values: `missingField` is the `ok_or("")` error on
an absent single-mode field, `imageLoad` covers cover/logo file failures
that propagate through `?`, `configParse` covers layout read/parse
failures. -/
inductive RunError where
  | missingField
  | imageLoad
  | configParse
deriving DecidableEq, Repr

/-- Outcome of a fallible computation: `ok`, a propagated `Err` (reported
at top level), or `crash` for a panic (`.unwrap()` on an `Err`), which
aborts the process without producing a reportable error result. -/
inductive Outcome (α : Type) where
  | ok : α → Outcome α
  | err : RunError → Outcome α
  | crash : Outcome α
deriving DecidableEq, Repr

/-- Status of a path passed to `cover_image`: `missing` when
`fs::canonicalize` fails (no such file), `undecodable` when the file
exists but `image::open` cannot decode it, `decodableImage` otherwise. -/
inductive FileStatus where
  | missing
  | undecodable
  | decodableImage
deriving DecidableEq, Repr

/-- The external world: layout-file reading + toml parsing (collaborators,
combined into one lookup), the status of each cover path, and the logo
file from the downloads directory (`none` when the directory is
unavailable or the file cannot be opened -- both propagate via
`ok_or`/`?`). -/
structure Env where
  layout : String → Except RunError Config
  coverFile : String → FileStatus
  logo : Option RawImg

/-- Model of Rust `String::to_uppercase` as a per-character uppercase map
(the two agree on ASCII input, which is all the claims exercise). -/
def toUppercase (s : String) : String := ⟨s.data.map Char.toUpper⟩

/- cover_image, src/main.rs lines 69-80.  `fs::canonicalize(path)?`
propagates a missing-file error; `image::open(..).unwrap()` panics when
the open/decode fails; on success the image is resized to a
LABEL_WIDTH_PX square with a triangle filter. -/

def cover_image (env : Env) (path : String) : Outcome RawImg :=
  match env.coverFile path with
  | .missing => .err .imageLoad
  | .undecodable => .crash
  | .decodableImage =>
      .ok (RawImg.resize (RawImg.decoded path) LABEL_WIDTH_PX LABEL_WIDTH_PX .triangle)

/- overlay_text, src/main.rs lines 82-117.  The font is a fixed embedded
resource (LiberationSans-Bold); its parse (`FontRef::try_from_slice`) is a
constant of the program and succeeds for the bundled file, so the
embedding is the pure drawing part. -/

def TEXT_AREA_HEIGHT : Nat := LABEL_HEIGHT_PX - LABEL_WIDTH_PX
def LINE_HEIGHT : Nat := TEXT_AREA_HEIGHT / 3

def first_line_y : Int := (LABEL_WIDTH_PX : Int) + PADDING
def second_line_y : Int := first_line_y + TEXT_SIZE_PT + PADDING
def third_line_y : Int := second_line_y + (LINE_HEIGHT : Int)

def overlay_text (label : Img) (title_text artist_text : String)
    (release_year : Option String) : Img :=
  let l1 := Img.drawText label whiteRgb PADDING first_line_y TEXT_SIZE_PT title_text
  let l2 := Img.drawText l1 whiteRgb PADDING second_line_y TEXT_SIZE_PT artist_text
  match release_year with
  | some year => Img.drawText l2 whiteRgb PADDING third_line_y TEXT_SIZE_PT year
  | none => l2

/- overlay_minidisc_logo, src/main.rs lines 119-135.  The logo is resized
to an MD_LOGO_SIZE square (Catmull-Rom) and overlaid inset by PADDING/2
from the bottom-right corner; u32 subtraction, then cast to i64. -/

def md_logo_x : Nat := LABEL_WIDTH_PX - (PADDING / 2).toNat - MD_LOGO_SIZE
def md_logo_y : Nat := LABEL_HEIGHT_PX - (PADDING / 2).toNat - MD_LOGO_SIZE

def overlay_minidisc_logo (env : Env) (img : Img) : Except RunError Img :=
  match env.logo with
  | none => .error .imageLoad
  | some logoImg =>
      .ok (Img.overlayRaw img
            (RawImg.resize logoImg MD_LOGO_SIZE MD_LOGO_SIZE .catmullRom)
            (md_logo_x : Int) (md_logo_y : Int))

/- main, src/main.rs lines 137-186. -/

/-- Label-source step of `main` (lines 141-158): with a layout argument the
config comes from reading and toml-parsing the layout file; otherwise the
single CLI label is built, uppercasing title/artist and the optional
release year (`ok_or("")?` fails on each absent required field, artist
checked first, then title, then cover). -/
def build_config (env : Env) (args : Args) : Except RunError Config :=
  match args.layout with
  | some path => env.layout path
  | none =>
      match args.artist with
      | none => .error .missingField
      | some artist_raw =>
          match args.title with
          | none => .error .missingField
          | some title_raw =>
              let release_year := args.release_year.map toUppercase
              match args.cover with
              | none => .error .missingField
              | some cover_path =>
                  .ok ⟨[⟨toUppercase title_raw, toUppercase artist_raw,
                         release_year, cover_path⟩]⟩

/-- The inverted fresh printable-area buffer (lines 161-164), as a term;
its pixel content is `printable_area_pixels`. -/
def initial_sheet : Img :=
  Img.invertAll (Img.newBuffer PRITNABLE_WIDTH_PX PRINTABLE_HEIGHT_PX)

/-- Per-label image composition, loop body lines 168-176: fresh
LABEL_WIDTH_PX x LABEL_HEIGHT_PX buffer, cover overlaid at (0,0), logo
overlaid, then the text lines. -/
def compose_label (env : Env) (label_info : Label) : Outcome Img :=
  match cover_image env label_info.cover with
  | .crash => .crash
  | .err e => .err e
  | .ok cov =>
      let label := Img.overlayRaw (Img.newBuffer LABEL_WIDTH_PX LABEL_HEIGHT_PX) cov 0 0
      match overlay_minidisc_logo env label with
      | .error e => .err e
      | .ok withLogo =>
          .ok (overlay_text withLogo label_info.title label_info.artist
                label_info.release_year)

/-- Horizontal placement of the label at 0-based ordinal `pos`, line 179:
`(pos * LABEL_WIDTH_PX as usize) + (MARGIN as usize * (pos + 2))`. -/
def x_pos (pos : Nat) : Nat := pos * LABEL_WIDTH_PX + MARGIN.toNat * (pos + 2)

/-- One placement onto the sheet, line 180: overlay at `(x_pos, 0)`. -/
def place_label_at (sheet lab : Img) (pos : Nat) : Img :=
  Img.overlay sheet lab ((x_pos pos : Nat) : Int) 0

/-- The `for (pos, label_info) in labels.iter().enumerate()` loop,
lines 167-181, threading the mutable sheet and aborting on the first
failed composition. -/
def place_labels (env : Env) (sheet : Img) : List Label → Nat → Outcome Img
  | [], _ => .ok sheet
  | label_info :: rest, pos =>
      match compose_label env label_info with
      | .crash => .crash
      | .err e => .err e
      | .ok lab => place_labels env (place_label_at sheet lab pos) rest (pos + 1)

/-- `main` up to (and excluding) the final `save`: the sheet buffer handed
to `printable_area.save` on success, or the failure outcome. -/
def run (env : Env) (args : Args) : Outcome Img :=
  match build_config env args with
  | .error e => .err e
  | .ok label_config => place_labels env initial_sheet label_config.labels 0

/-- `printable_area.save(args.output)` (line 184) is reached exactly when
everything before it succeeded: whether an output file is written. -/
def output_written (env : Env) (args : Args) : Bool :=
  match run env args with
  | .ok _ => true
  | _ => false

/-- The image a successful composition of `label_info` produces (the `ok`
payload of `compose_label`; irrelevant default otherwise). -/
def composed_label (env : Env) (label_info : Label) : Img :=
  match compose_label env label_info with
  | .ok i => i
  | _ => Img.newBuffer 0 0

/- ------------------------------------------------------------------ -/
/- Theorems about the claims.                                          -/
/- ------------------------------------------------------------------ -/

/-- C1: the label at 0-based ordinal position k is overlaid at horizontal
offset k * LABEL_WIDTH_PX + MARGIN * (k + 2) and vertical offset 0, and
under the default constants these offsets are strictly increasing in k
and consecutive labels' horizontal extents of width LABEL_WIDTH_PX do not
overlap. -/
theorem c1_label_placement (k : Nat) (sheet lab : Img) :
    place_label_at sheet lab k =
      Img.overlay sheet lab ((k * LABEL_WIDTH_PX + MARGIN.toNat * (k + 2) : Nat) : Int) 0
    ∧ x_pos k < x_pos (k + 1)
    ∧ x_pos k + LABEL_WIDTH_PX ≤ x_pos (k + 1) := by
  refine ⟨rfl, ?_, ?_⟩ <;>
    simp [x_pos, LABEL_WIDTH_PX, LABEL_WIDTH, DESIRED_DPMM, MARGIN] <;> omega

/-- C2: the text overlay with a release year present equals the overlay
with the year absent plus exactly one further drawn line; the title is
drawn at (PADDING, LABEL_WIDTH_PX + PADDING) and the artist at the same x
one fixed offset below, at the same positions whether or not a year is
supplied; with the year absent no third line is drawn at all. -/
theorem c2_year_line_only (label : Img) (t a y : String) :
    overlay_text label t a (some y) =
      Img.drawText (overlay_text label t a none) whiteRgb PADDING third_line_y TEXT_SIZE_PT y
    ∧ Img.textLines (overlay_text label t a none) =
        Img.textLines label ++ [(t, PADDING, first_line_y), (a, PADDING, second_line_y)]
    ∧ Img.textLines (overlay_text label t a (some y)) =
        Img.textLines label ++ [(t, PADDING, first_line_y), (a, PADDING, second_line_y),
                                (y, PADDING, third_line_y)]
    ∧ first_line_y = (LABEL_WIDTH_PX : Int) + PADDING
    ∧ second_line_y = first_line_y + TEXT_SIZE_PT + PADDING := by
  refine ⟨rfl, ?_, ?_, rfl, rfl⟩ <;> simp [overlay_text, Img.textLines]

/-- C6: every derived pixel dimension is exactly its millimetre dimension
times the dots-per-mm constant, all are positive, LABEL_WIDTH_PX = 36*24,
LABEL_HEIGHT_PX = 50*24, PRITNABLE_WIDTH_PX = 76*24,
PRINTABLE_HEIGHT_PX = 50*24, and the label dimensions do not exceed the
sheet dimensions. -/
theorem c6_pixel_dimensions :
    LABEL_WIDTH_PX = 36 * 24 ∧ LABEL_HEIGHT_PX = 50 * 24
    ∧ PRITNABLE_WIDTH_PX = 76 * 24 ∧ PRINTABLE_HEIGHT_PX = 50 * 24
    ∧ LABEL_WIDTH_PX = LABEL_WIDTH * DESIRED_DPMM
    ∧ LABEL_HEIGHT_PX = LABEL_HEIGHT * DESIRED_DPMM
    ∧ PRITNABLE_WIDTH_PX = PRITNABLE_WIDTH * DESIRED_DPMM
    ∧ PRINTABLE_HEIGHT_PX = PRINTABLE_HEIGHT * DESIRED_DPMM
    ∧ 0 < LABEL_WIDTH_PX ∧ 0 < LABEL_HEIGHT_PX
    ∧ 0 < PRITNABLE_WIDTH_PX ∧ 0 < PRINTABLE_HEIGHT_PX
    ∧ LABEL_WIDTH_PX ≤ PRITNABLE_WIDTH_PX
    ∧ LABEL_HEIGHT_PX ≤ PRINTABLE_HEIGHT_PX := by decide

/-- C7: after allocating the zero-valued (black) sheet buffer and
inverting every pixel, every pixel within the sheet bounds is solid white
(255, 255, 255), before any label is overlaid. -/
theorem c7_sheet_white (x y : Nat)
    (hx : x < PRITNABLE_WIDTH_PX) (hy : y < PRINTABLE_HEIGHT_PX) :
    printable_area_pixels x y = whiteRgb
    ∧ Img.pixelAt initial_sheet x y = some whiteRgb := ⟨rfl, rfl⟩

/-- Witness for C7 at the concrete pixel (0, 0). -/
theorem c7_sheet_white_witness :
    (0 : Nat) < PRITNABLE_WIDTH_PX ∧ (0 : Nat) < PRINTABLE_HEIGHT_PX
    ∧ (printable_area_pixels 0 0 = whiteRgb
       ∧ Img.pixelAt initial_sheet 0 0 = some whiteRgb) :=
  ⟨by decide, by decide, c7_sheet_white 0 0 (by decide) (by decide)⟩

/-- C10: none of the unsigned subtractions in the layout arithmetic
underflow under the default constants: the text band height
LABEL_HEIGHT_PX - LABEL_WIDTH_PX and the logo offsets
LABEL_WIDTH_PX - PADDING/2 - MD_LOGO_SIZE and
LABEL_HEIGHT_PX - PADDING/2 - MD_LOGO_SIZE are all exact (non-truncating)
subtractions. -/
theorem c10_no_underflow :
    LABEL_WIDTH_PX ≤ LABEL_HEIGHT_PX
    ∧ TEXT_AREA_HEIGHT + LABEL_WIDTH_PX = LABEL_HEIGHT_PX
    ∧ (PADDING / 2).toNat + MD_LOGO_SIZE ≤ LABEL_WIDTH_PX
    ∧ md_logo_x + ((PADDING / 2).toNat + MD_LOGO_SIZE) = LABEL_WIDTH_PX
    ∧ (PADDING / 2).toNat + MD_LOGO_SIZE ≤ LABEL_HEIGHT_PX
    ∧ md_logo_y + ((PADDING / 2).toNat + MD_LOGO_SIZE) = LABEL_HEIGHT_PX := by decide

/-- Helper: a label-source failure propagates to the run outcome and the
output file is never written. -/
theorem run_of_config_error (env : Env) (args : Args) (e : RunError)
    (h : build_config env args = .error e) :
    run env args = .err e ∧ output_written env args = false := by
  constructor
  · simp [run, h]
  · simp [output_written, run, h]

/- Concrete inputs exercising the layout path with lowercase fields. -/

def c3_env : Env :=
  { layout := fun _ => .ok ⟨[⟨"abc", "def", some "1999x", "cover.png"⟩]⟩
    coverFile := fun _ => .decodableImage
    logo := some (RawImg.decoded "md30wiki_color.png") }

def c3_args : Args :=
  { cover := none, title := none, artist := none, release_year := none,
    output := "out.png", layout := some "layout.toml" }

/-- C3 (counterexample): a label descriptor parsed from a layout file is
used exactly as parsed — a lowercase title survives construction, so not
every descriptor constructed by the program has its texts normalized to
uppercase. -/
theorem c3_layout_not_uppercased :
    build_config c3_env c3_args = .ok ⟨[⟨"abc", "def", some "1999x", "cover.png"⟩]⟩
    ∧ "abc" ≠ toUppercase "abc" := ⟨rfl, by decide⟩

/-- C3 (amended): only descriptors built from the direct CLI fields are
normalized to uppercase (title, artist, and the release year when
present); descriptors parsed from a layout file are passed through
unchanged. -/
theorem c3_uppercase_cli_only (env : Env) (args : Args) :
    (∀ t a c, args.layout = none → args.title = some t → args.artist = some a →
      args.cover = some c →
      build_config env args =
        .ok ⟨[⟨toUppercase t, toUppercase a, args.release_year.map toUppercase, c⟩]⟩)
    ∧ (∀ p, args.layout = some p → build_config env args = env.layout p) := by
  constructor
  · intro t a c hl ht ha hc
    simp [build_config, hl, ht, ha, hc]
  · intro p hl
    simp [build_config, hl]

def c3_cli_args : Args :=
  { cover := some "c.png", title := some "t", artist := some "a",
    release_year := some "y", output := "out.png", layout := none }

/-- Witness for the amended C3 on concrete CLI arguments. -/
theorem c3_uppercase_cli_only_witness :
    build_config c3_env c3_cli_args = .ok ⟨[⟨"T", "A", some "Y", "c.png"⟩]⟩ :=
  (c3_uppercase_cli_only c3_env c3_cli_args).1 "t" "a" "c.png" rfl rfl rfl rfl

/- Concrete inputs for single mode. -/

def c4_env : Env :=
  { layout := fun _ => .error .configParse
    coverFile := fun _ => .decodableImage
    logo := some (RawImg.decoded "md30wiki_color.png") }

def c4_empty_args : Args :=
  { cover := some "cover.png", title := some "", artist := some "ARTIST",
    release_year := none, output := "out.png", layout := none }

/-- C4 (counterexample): a single-mode run whose title is present but
empty does not fail with a missing-field error — the descriptor is built
with the empty title, the run completes, and the output file is
written. -/
theorem c4_empty_field_accepted :
    build_config c4_env c4_empty_args = .ok ⟨[⟨"", "ARTIST", none, "cover.png"⟩]⟩
    ∧ run c4_env c4_empty_args ≠ .err .missingField
    ∧ output_written c4_env c4_empty_args = true := by
  refine ⟨rfl, by decide, rfl⟩

/-- C4 (amended): in single mode, a run with title, artist, and cover
path all supplied (even if empty strings) builds exactly one label
descriptor; a run with any of the three absent fails with the
missing-field error and writes no output file. -/
theorem c4_missing_field_error (env : Env) (args : Args)
    (hl : args.layout = none) :
    (args.title.isSome → args.artist.isSome → args.cover.isSome →
      ∃ l : Label, build_config env args = .ok ⟨[l]⟩)
    ∧ ((args.title = none ∨ args.artist = none ∨ args.cover = none) →
      build_config env args = .error .missingField
      ∧ run env args = .err .missingField
      ∧ output_written env args = false) := by
  constructor
  · intro ht ha hc
    obtain ⟨t, hT⟩ := Option.isSome_iff_exists.mp ht
    obtain ⟨a, hA⟩ := Option.isSome_iff_exists.mp ha
    obtain ⟨c, hC⟩ := Option.isSome_iff_exists.mp hc
    exact ⟨⟨toUppercase t, toUppercase a, args.release_year.map toUppercase, c⟩,
      by simp [build_config, hl, hT, hA, hC]⟩
  · intro hmiss
    have hbc : build_config env args = .error .missingField := by
      rcases hmiss with hT | hA | hC
      · rcases hA : args.artist with _ | a <;>
          simp [build_config, hl, hT, hA]
      · simp [build_config, hl, hA]
      · rcases hA : args.artist with _ | a <;>
          rcases hT : args.title with _ | t <;>
          simp [build_config, hl, hT, hA, hC]
    obtain ⟨h1, h2⟩ := run_of_config_error env args .missingField hbc
    exact ⟨hbc, h1, h2⟩

def c4_none_args : Args :=
  { cover := some "cover.png", title := none, artist := some "ARTIST",
    release_year := none, output := "out.png", layout := none }

/-- Witness for the amended C4: with the title argument absent the run
fails with the missing-field error and no output is written. -/
theorem c4_missing_field_error_witness :
    build_config c4_env c4_none_args = .error .missingField
    ∧ run c4_env c4_none_args = .err .missingField
    ∧ output_written c4_env c4_none_args = false :=
  (c4_missing_field_error c4_env c4_none_args rfl).2 (Or.inl rfl)

/- Concrete inputs for the cover-loading failure modes. -/

def c5_missing_env : Env :=
  { layout := fun _ => .error .configParse
    coverFile := fun _ => .missing
    logo := some (RawImg.decoded "md30wiki_color.png") }

def c5_undecodable_env : Env :=
  { layout := fun _ => .error .configParse
    coverFile := fun _ => .undecodable
    logo := some (RawImg.decoded "md30wiki_color.png") }

def c5_args : Args :=
  { cover := some "bad.png", title := some "T", artist := some "A",
    release_year := none, output := "out.png", layout := none }

/-- C5 (counterexample): a cover path whose file exists but cannot be
decoded as an image makes the run panic (an unwrap on the failed decode),
not abort with a propagated image-load error result. -/
theorem c5_undecodable_panics :
    cover_image c5_undecodable_env "bad.png" = .crash
    ∧ run c5_undecodable_env c5_args = .crash
    ∧ run c5_undecodable_env c5_args ≠ .err .imageLoad
    ∧ output_written c5_undecodable_env c5_args = false := by
  refine ⟨rfl, by decide, by decide, rfl⟩

/-- C5 (amended): a missing cover path aborts the run with a propagated
image-load error and no output file; a cover file that exists but cannot
be decoded aborts the run by panicking (also writing no output file)
rather than by a propagated error result. -/
theorem c5_cover_errors (env : Env) (args : Args) (path t a : String)
    (hl : args.layout = none) (ht : args.title = some t)
    (ha : args.artist = some a) (hc : args.cover = some path) :
    (env.coverFile path = .missing →
      run env args = .err .imageLoad ∧ output_written env args = false)
    ∧ (env.coverFile path = .undecodable →
      run env args = .crash ∧ output_written env args = false) := by
  have hbc : build_config env args =
      .ok ⟨[⟨toUppercase t, toUppercase a, args.release_year.map toUppercase, path⟩]⟩ := by
    simp [build_config, hl, ht, ha, hc]
  constructor
  · intro hm
    constructor
    · simp [run, hbc, place_labels, compose_label, cover_image, hm]
    · simp [output_written, run, hbc, place_labels, compose_label, cover_image, hm]
  · intro hu
    constructor
    · simp [run, hbc, place_labels, compose_label, cover_image, hu]
    · simp [output_written, run, hbc, place_labels, compose_label, cover_image, hu]

/-- Witness for the amended C5: a concrete missing cover path yields the
propagated image-load error with no output written. -/
theorem c5_cover_errors_witness :
    run c5_missing_env c5_args = .err .imageLoad
    ∧ output_written c5_missing_env c5_args = false :=
  (c5_cover_errors c5_missing_env c5_args "bad.png" "T" "A" rfl rfl rfl rfl).1 rfl

/-- Helper: when the cover decodes and the logo is available, composing a
label succeeds with the composed image. -/
theorem compose_label_ok (env : Env) (li : Label)
    (hcov : env.coverFile li.cover = .decodableImage)
    (lg : RawImg) (hlg : env.logo = some lg) :
    compose_label env li = .ok (composed_label env li) := by
  have h : compose_label env li =
      .ok (overlay_text
            (Img.overlayRaw
              (Img.overlayRaw (Img.newBuffer LABEL_WIDTH_PX LABEL_HEIGHT_PX)
                (RawImg.resize (RawImg.decoded li.cover) LABEL_WIDTH_PX LABEL_WIDTH_PX
                  .triangle) 0 0)
              (RawImg.resize lg MD_LOGO_SIZE MD_LOGO_SIZE .catmullRom)
              (md_logo_x : Int) (md_logo_y : Int))
            li.title li.artist li.release_year) := by
    simp [compose_label, cover_image, overlay_minidisc_logo, hcov, hlg]
  simp [composed_label, h]

/-- Helper: the placement loop, started at ordinal position pos over any
accumulated sheet, succeeds when every cover decodes and the logo is
available, and appends exactly the placements of the remaining labels in
declaration order at positions pos, pos+1, ... -/
theorem place_labels_overlays (env : Env) (lg : RawImg) (hlg : env.logo = some lg) :
    ∀ (labels : List Label) (pos : Nat) (sheet : Img),
      (∀ l ∈ labels, env.coverFile l.cover = .decodableImage) →
      ∃ s, place_labels env sheet labels pos = .ok s ∧
        Img.overlays s = Img.overlays sheet ++
          (List.enumFrom pos labels).map
            (fun q => (composed_label env q.2, ((x_pos q.1 : Nat) : Int), 0)) := by
  intro labels
  induction labels with
  | nil =>
      intro pos sheet _
      exact ⟨sheet, rfl, by simp [List.enumFrom]⟩
  | cons head tail ih =>
      intro pos sheet hcov
      have hh : env.coverFile head.cover = .decodableImage := hcov head (by simp)
      have hc : compose_label env head = .ok (composed_label env head) :=
        compose_label_ok env head hh lg hlg
      obtain ⟨s, hs, hov⟩ :=
        ih (pos + 1) (place_label_at sheet (composed_label env head) pos)
          (fun l hl => hcov l (by simp [hl]))
      refine ⟨s, ?_, ?_⟩
      · simp [place_labels, hc, hs]
      · rw [hov]
        simp [place_label_at, Img.overlays, List.enumFrom]

/-- C8: for a layout that parses into K label entries, with every entry's
cover decodable and the logo available, the run overlays exactly K
composed labels onto the sheet, entry i being placed at ordinal position
i (horizontal offset x_pos i, vertical offset 0), in file-declared
order. -/
theorem c8_batch_order (env : Env) (args : Args) (p : String) (cfg : Config)
    (hl : args.layout = some p) (hp : env.layout p = .ok cfg)
    (hcov : ∀ l ∈ cfg.labels, env.coverFile l.cover = .decodableImage)
    (lg : RawImg) (hlg : env.logo = some lg) :
    ∃ s, run env args = .ok s
      ∧ (Img.overlays s).length = cfg.labels.length
      ∧ Img.overlays s = (List.enumFrom 0 cfg.labels).map
          (fun q => (composed_label env q.2, ((x_pos q.1 : Nat) : Int), 0)) := by
  obtain ⟨s, hs, hov⟩ :=
    place_labels_overlays env lg hlg cfg.labels 0 initial_sheet hcov
  have hov0 : Img.overlays s = (List.enumFrom 0 cfg.labels).map
      (fun q => (composed_label env q.2, ((x_pos q.1 : Nat) : Int), 0)) := by
    rw [hov]; simp [initial_sheet, Img.overlays]
  refine ⟨s, ?_, ?_, hov0⟩
  · simp [run, build_config, hl, hp, hs]
  · rw [hov0]; simp

def c8_cfg : Config :=
  ⟨[⟨"A", "X", some "1999", "a.png"⟩, ⟨"B", "Y", none, "b.png"⟩]⟩

def c8_env : Env :=
  { layout := fun _ => .ok c8_cfg
    coverFile := fun _ => .decodableImage
    logo := some (RawImg.decoded "md30wiki_color.png") }

def c8_args : Args :=
  { cover := none, title := none, artist := none, release_year := none,
    output := "out.png", layout := some "layout.toml" }

/-- Witness for C8 on a concrete two-entry layout. -/
theorem c8_batch_order_witness :
    ∃ s, run c8_env c8_args = .ok s
      ∧ (Img.overlays s).length = c8_cfg.labels.length
      ∧ Img.overlays s = (List.enumFrom 0 c8_cfg.labels).map
          (fun q => (composed_label c8_env q.2, ((x_pos q.1 : Nat) : Int), 0)) :=
  c8_batch_order c8_env c8_args "layout.toml" c8_cfg rfl rfl (by decide)
    (RawImg.decoded "md30wiki_color.png") rfl

/-- C9: a layout that parses to an empty labels list makes the run
succeed with the untouched sheet: full printable dimensions, the white
inverted background at every pixel, no label overlaid, and the output is
written. -/
theorem c9_empty_layout (env : Env) (args : Args) (p : String)
    (hl : args.layout = some p) (hp : env.layout p = .ok ⟨[]⟩) :
    run env args = .ok initial_sheet
    ∧ output_written env args = true
    ∧ Img.width initial_sheet = PRITNABLE_WIDTH_PX
    ∧ Img.height initial_sheet = PRINTABLE_HEIGHT_PX
    ∧ Img.overlays initial_sheet = []
    ∧ ∀ x y, Img.pixelAt initial_sheet x y = some whiteRgb := by
  have hr : run env args = .ok initial_sheet := by
    simp [run, build_config, hl, hp, place_labels]
  exact ⟨hr, by simp [output_written, hr], rfl, rfl, rfl, fun x y => rfl⟩

def c9_env : Env :=
  { layout := fun _ => .ok ⟨[]⟩
    coverFile := fun _ => .missing
    logo := none }

def c9_args : Args :=
  { cover := none, title := none, artist := none, release_year := none,
    output := "out.png", layout := some "layout.toml" }

/-- Witness for C9 on a concrete empty layout (no cover or logo needed,
since the loop body never runs). -/
theorem c9_empty_layout_witness :
    run c9_env c9_args = .ok initial_sheet
    ∧ output_written c9_env c9_args = true
    ∧ Img.width initial_sheet = PRITNABLE_WIDTH_PX
    ∧ Img.height initial_sheet = PRINTABLE_HEIGHT_PX
    ∧ Img.overlays initial_sheet = []
    ∧ ∀ x y, Img.pixelAt initial_sheet x y = some whiteRgb :=
  c9_empty_layout c9_env c9_args "layout.toml" rfl rfl

end MdLabelGen
